import Mathlib

/-!
Verification development for the AgentStack conversational-agent service.

The development shallowly embeds the two non-trivial components of the
repository:

* `src/app/services/llm.py` — the model resilience layer (`LLMRegistry`,
  `LLMService` with its tenacity retry decorator and circular fallback loop);
* `src/app/core/langgraph/graph.py` — the conversation state machine's
  `tool_call` node and the orchestrator entry point `get_response`.

External effects (the model backends themselves, the compiled graph, the
memory client) are abstracted as oracle functions passed in as parameters;
everything the repository's own code does with their results is translated
directly from the source.
-/

namespace AgentStack

/- ==================================================
   Model of src/app/services/llm.py
   ================================================== -/

/-- Exception classes relevant to the resilience layer, as imported from the
openai library plus a catch-all for everything else.  `rateLimitError`,
`apiTimeoutError` and `apiError` are the classes named in the retry
decorator's `retry_if_exception_type`; `otherOpenAIError` is an exception in
the `OpenAIError` family that is not one of those three (for example a plain
`OpenAIError`); `nonOpenAIError` is any exception outside that family (for
example `RuntimeError`). -/
inductive LLMError
  | rateLimitError
  | apiTimeoutError
  | apiError
  | otherOpenAIError
  | nonOpenAIError
deriving DecidableEq, Repr

/-- The transient classes retried by the decorator:
`retry_if_exception_type((RateLimitError, APITimeoutError, APIError))`. -/
def isTransient : LLMError → Bool
  | LLMError.rateLimitError => true
  | LLMError.apiTimeoutError => true
  | LLMError.apiError => true
  | _ => false

/-- Membership in the `OpenAIError` family, the class caught by the
`except OpenAIError` clause of `LLMService.call`.  All three transient
classes are subclasses of `OpenAIError`. -/
def isOpenAIError : LLMError → Bool
  | LLMError.nonOpenAIError => false
  | _ => true

theorem isTransient_isOpenAIError (e : LLMError) (h : isTransient e = true) :
    isOpenAIError e = true := by
  cases e <;> simp_all [isTransient, isOpenAIError]

/-- Default of `settings.MAX_LLM_CALL_RETRIES` (src/app/core/config/settings.py). -/
def MAX_LLM_CALL_RETRIES : Nat := 3

/-- Backoff delay produced by tenacity's
`wait_exponential(multiplier=1, min=2, max=10)` after the failure of attempt
number `attemptNumber` (1-based): the library computes
`max(max(0, min), min(multiplier * exp_base ** attempt_number, max))`. -/
def backoffDelay (attemptNumber : Nat) : Nat :=
  max (max 0 2) (min (1 * 2 ^ attemptNumber) 10)

/-- The tenacity retry loop wrapping `LLMService._call_with_retry`.
`behavior a` is the outcome of the a-th (1-based) invocation of
`self._llm.ainvoke(messages)`; `maxAttempts` is `stop_after_attempt`'s bound.
Returns the final outcome (`reraise=True`: the last exception is re-raised
after the stop condition) together with the number of attempts made.
`fuel` only forces termination; starting from `retryGo behavior maxAttempts 1
maxAttempts` it never runs out before the stop condition. -/
def retryGo (behavior : Nat → Except LLMError α) (maxAttempts : Nat) :
    Nat → Nat → Except LLMError α × Nat
  | attempt, 0 =>
    match behavior attempt with
    | Except.ok a => (Except.ok a, attempt)
    | Except.error e => (Except.error e, attempt)
  | attempt, fuel + 1 =>
    match behavior attempt with
    | Except.ok a => (Except.ok a, attempt)
    | Except.error e =>
      if isTransient e && decide (attempt < maxAttempts) then
        retryGo behavior maxAttempts (attempt + 1) fuel
      else
        (Except.error e, attempt)

/-- Model of `LLMService._call_with_retry` under the retry decorator: attempt
numbers start at 1 and at most `maxAttempts` attempts are made. -/
def callWithRetry (behavior : Nat → Except LLMError α) (maxAttempts : Nat) :
    Except LLMError α × Nat :=
  retryGo behavior maxAttempts 1 maxAttempts

/-- Names of the entries of `LLMRegistry.LLMS`, in registry order.  The llm
object of an entry is modelled throughout by its index in this list. -/
def LLMS : List String := ["gpt-5-mini", "gpt-4o", "gpt-4o-mini"]

/-- Default of `settings.DEFAULT_LLM_MODEL` (src/app/core/config/settings.py). -/
def DEFAULT_LLM_MODEL : String := "gpt-4o-mini"

/-- Scan of the registry entries performed by both `LLMRegistry.get` and
python's `list.index`: index (counting from `i`) of the first entry whose
name equals `modelName`, or `none`. -/
def registryScan : List String → String → Nat → Option Nat
  | [], _, _ => none
  | n :: rest, modelName, i =>
    if n = modelName then some i else registryScan rest modelName (i + 1)

/-- Model of `LLMRegistry.get`: iterate over `cls.LLMS` and return the first entry
whose name matches; default to `cls.LLMS[0]["llm"]` when no entry matches
(the registry constant is non-empty).  The returned llm object is modelled
by its registry index. -/
def registryGet (llms : List String) (modelName : String) : Nat :=
  match registryScan llms modelName 0 with
  | some i => i
  | none => 0

/-- Python `list.index` on `LLMRegistry.get_all_names()`: first index of `x`,
raising `ValueError` (modelled as `Except.error`) when absent. -/
def listIndex (l : List String) (x : String) : Except Unit Nat :=
  match registryScan l x 0 with
  | some i => Except.ok i
  | none => Except.error ()

/-- Mutable state of one `LLMService` instance: the `_llm` reference
(modelled by the registry index of the object it points to) and
`_current_model_index`. -/
structure LLMService where
  llm : Nat
  currentModelIndex : Nat
deriving DecidableEq, Repr

/-- Model of `LLMService.__init__`: `_llm` is set to `LLMRegistry.get(default)`;
`all_names.index(default)` then either sets `_current_model_index` or raises
`ValueError`, in which case the except-branch re-points `_llm` at
`LLMS[0]["llm"]` and `_current_model_index` keeps its initial value 0. -/
def LLMService.init (llms : List String) (defaultModel : String) : LLMService :=
  let afterGet : LLMService := { llm := registryGet llms defaultModel, currentModelIndex := 0 }
  match listIndex llms defaultModel with
  | Except.ok i => { afterGet with currentModelIndex := i }
  | Except.error _ => { afterGet with llm := 0 }

/-- Model of `LLMService._switch_to_next_model`: advance circularly to the next
registry entry, updating both `_current_model_index` and `_llm`.  (The
registry constant is non-empty, so the index computation never raises.) -/
def switchToNextModel (llms : List String) (s : LLMService) : LLMService :=
  let nextIndex := (s.currentModelIndex + 1) % llms.length
  { llm := nextIndex, currentModelIndex := nextIndex }

/-- Possible outcomes of `LLMService.call`: a response message, a propagated
exception outside the `OpenAIError` family (not caught by the loop), or the
terminal `RuntimeError("Failed to get response from any LLM after exhausting
all options.")`. -/
inductive CallOutcome (α : Type)
  | success (a : α)
  | propagated (e : LLMError)
  | allExhausted
deriving DecidableEq, Repr

/-- The outer fallback loop of `LLMService.call`.  `behavior b a` is the
outcome of attempt `a` of `self._llm.ainvoke` while `_llm` points at registry
index `b`.  `fuel` stands for `total_models - models_tried`; on entry it is
`llms.length`.  The third component counts the number of rounds, that is of
invocations of `_call_with_retry` (instrumentation for the specification;
the loop itself is translated from the source unchanged). -/
def callLoop (llms : List String) (maxAttempts : Nat)
    (behavior : Nat → Nat → Except LLMError α) :
    LLMService → Nat → CallOutcome α × LLMService × Nat
  | s, 0 => (CallOutcome.allExhausted, s, 0)
  | s, fuel + 1 =>
    match (callWithRetry (behavior s.llm) maxAttempts).1 with
    | Except.ok a => (CallOutcome.success a, s, 1)
    | Except.error e =>
      if isOpenAIError e then
        if fuel = 0 then (CallOutcome.allExhausted, s, 1)
        else
          let next := callLoop llms maxAttempts behavior (switchToNextModel llms s) fuel
          (next.1, next.2.1, next.2.2 + 1)
      else (CallOutcome.propagated e, s, 1)

/-- Model of `LLMService.call`: run the fallback loop for at most
`len(LLMRegistry.LLMS)` rounds, returning the outcome, the service state
after the call, and the number of rounds used. -/
def LLMService.call (llms : List String) (maxAttempts : Nat)
    (behavior : Nat → Nat → Except LLMError α) (s : LLMService) :
    CallOutcome α × LLMService × Nat :=
  callLoop llms maxAttempts behavior s llms.length

/- ==================================================
   Model of src/app/core/langgraph/graph.py
   ================================================== -/

/-- One tool-call request attached to an assistant message (name, arguments,
call id).  Arguments and results are opaque to the repository's code, which
only threads them through; both are modelled as strings. -/
structure ToolCall where
  name : String
  args : String
  id : String
deriving DecidableEq, Repr

/-- A message of the graph state, with exactly the fields the embedded code
reads or writes: role, content, the attached tool-call requests, and the
tool-call id (meaningful when the role is "tool"). -/
structure GraphMessage where
  role : String
  content : String
  name : String
  tool_calls : List ToolCall
  tool_call_id : String
deriving DecidableEq, Repr

/-- The graph state (`GraphState`): the message sequence plus the injected
long-term-memory context string. -/
structure GraphState where
  messages : List GraphMessage
  long_term_memory : String
deriving DecidableEq, Repr

/-- A `Command` returned by a node: the messages to append to the state and
the next node to route to. -/
structure Command where
  update : List GraphMessage
  goto : String
deriving DecidableEq, Repr

/-- Applying a node's `Command` to the state: the `messages` channel of
`GraphState` appends the update (LangGraph's message reducer). -/
def applyCommand (state : GraphState) (cmd : Command) : GraphState :=
  { state with messages := state.messages ++ cmd.update }

/-- Errors that `LangGraphAgent._tool_call` can raise: `IndexError` from
`state.messages[-1]` on an empty sequence, and `KeyError` from
`self.tools_by_name[name]` for an unregistered tool name. -/
inductive ToolNodeError
  | indexError
  | keyError (name : String)
deriving DecidableEq, Repr

/-- The body of the for-loop of `LangGraphAgent._tool_call`: execute each
requested tool in request order (`toolsByName` is the `tools_by_name`
mapping, each tool an `args → result` function) and wrap each result in a
tool message with `content = str(result)`, the tool's name, and
`tool_call_id` equal to the request's id.  An unregistered name raises
`KeyError` with that name. -/
def toolCallOutputs (toolsByName : String → Option (String → String)) :
    List ToolCall → Except ToolNodeError (List GraphMessage)
  | [] => Except.ok []
  | tc :: rest =>
    match toolsByName tc.name with
    | none => Except.error (ToolNodeError.keyError tc.name)
    | some tool =>
      match toolCallOutputs toolsByName rest with
      | Except.ok outs =>
        Except.ok ({ role := "tool", content := tool tc.args, name := tc.name,
                     tool_calls := [], tool_call_id := tc.id } :: outs)
      | Except.error e => Except.error e

/-- Model of `LangGraphAgent._tool_call`: read the tool-call requests of
`state.messages[-1]`, execute them all, and return
`Command(update=outputs, goto="chat")`. -/
def toolCallNode (toolsByName : String → Option (String → String))
    (state : GraphState) : Except ToolNodeError Command :=
  match state.messages.getLast? with
  | none => Except.error ToolNodeError.indexError
  | some m =>
    match toolCallOutputs toolsByName m.tool_calls with
    | Except.ok outs => Except.ok { update := outs, goto := "chat" }
    | Except.error e => Except.error e

/-- Names of the entries of the static tool registry
(src/app/core/langgraph/tools/__init__.py): the single DuckDuckGo search
tool. -/
def toolRegistryNames : List String := ["duckduckgo_results_json"]

/- ==================================================
   Model of LangGraphAgent.get_response (the orchestrator)
   ================================================== -/

/-- External message shape (`app.schemas.Message`): role and content. -/
structure Message where
  role : String
  content : String
deriving DecidableEq, Repr

/-- Errors observable from `get_response` in the embedded fragment:
`IndexError` from `messages[-1]` on an empty input list, and any exception
raised by the memory search, which the source does not catch. -/
inductive TurnError
  | indexError
  | searchError
deriving DecidableEq, Repr

/-- Python `"\n".join`. -/
def joinLines : List String → String
  | [] => ""
  | [x] => x
  | x :: y :: ys => x ++ "\x0a" ++ joinLines (y :: ys)

/-- Model of `LangGraphAgent._process_messages`: keep only messages whose role is
"assistant" or "user" and whose content is truthy (non-empty), converting
them to the external shape in order. -/
def processMessages (messages : List GraphMessage) : List Message :=
  messages.filterMap fun m =>
    if (m.role = "assistant" || m.role = "user") && !(m.content = "") then
      some { role := m.role, content := m.content }
    else none

/-- Model of `LangGraphAgent.get_response`: look up the last input message's content,
search long-term memory with it (`search query = results-or-error`; the
source has no try/except around this call), join the results as
`"* <memory>"` lines, inject the joined context or the sentinel
`"No relevant memory found."` when the joined string is empty, then run the
compiled graph (abstracted as the oracle `runGraph initialMessages
longTermMemory = finalMessages`) and convert the final messages to the
external shape.  The fire-and-forget memory update happens after the final
state is known and does not affect the returned value. -/
def getResponse (search : String → Except Unit (List String))
    (runGraph : List Message → String → List GraphMessage)
    (messages : List Message) : Except TurnError (List Message) :=
  match messages.getLast? with
  | none => Except.error TurnError.indexError
  | some lastMsg =>
    match search lastMsg.content with
    | Except.error _ => Except.error TurnError.searchError
    | Except.ok results =>
      let memoryContext := joinLines (results.map fun res => "* " ++ res)
      let longTermMemory :=
        if memoryContext = "" then "No relevant memory found." else memoryContext
      Except.ok (processMessages (runGraph messages longTermMemory))

/- ==================================================
   Helper lemmas
   ================================================== -/

theorem retryGo_snd_ge (behavior : Nat → Except LLMError α) (maxAttempts : Nat) :
    ∀ (fuel attempt : Nat), attempt ≤ (retryGo behavior maxAttempts attempt fuel).2 := by
  intro fuel
  induction fuel with
  | zero =>
    intro attempt
    cases h : behavior attempt <;> simp [retryGo, h]
  | succ fuel ih =>
    intro attempt
    cases h : behavior attempt with
    | ok a => simp [retryGo, h]
    | error e =>
      by_cases hc : (isTransient e && decide (attempt < maxAttempts)) = true
      · have := ih (attempt + 1)
        simp only [retryGo, h, hc, if_true]
        omega
      · simp [retryGo, h, hc]

theorem retryGo_snd_le (behavior : Nat → Except LLMError α) (maxAttempts : Nat) :
    ∀ (fuel attempt : Nat),
      (retryGo behavior maxAttempts attempt fuel).2 ≤ max maxAttempts attempt := by
  intro fuel
  induction fuel with
  | zero =>
    intro attempt
    cases h : behavior attempt <;> simp [retryGo, h]
  | succ fuel ih =>
    intro attempt
    cases h : behavior attempt with
    | ok a => simp [retryGo, h]
    | error e =>
      by_cases hc : (isTransient e && decide (attempt < maxAttempts)) = true
      · have hlt : attempt < maxAttempts := by
          simp only [Bool.and_eq_true, decide_eq_true_eq] at hc
          exact hc.2
        have := ih (attempt + 1)
        simp only [retryGo, h, hc, if_true]
        omega
      · simp [retryGo, h, hc]

theorem callLoop_zero (llms : List String) (maxAttempts : Nat)
    (behavior : Nat → Nat → Except LLMError α) (s : LLMService) :
    callLoop llms maxAttempts behavior s 0 = (CallOutcome.allExhausted, s, 0) := rfl

theorem callLoop_succ_ok (llms : List String) (maxAttempts : Nat)
    (behavior : Nat → Nat → Except LLMError α) (s : LLMService) (fuel : Nat) (a : α)
    (h : (callWithRetry (behavior s.llm) maxAttempts).1 = Except.ok a) :
    callLoop llms maxAttempts behavior s (fuel + 1) = (CallOutcome.success a, s, 1) := by
  rw [callLoop, h]

theorem callLoop_succ_propagated (llms : List String) (maxAttempts : Nat)
    (behavior : Nat → Nat → Except LLMError α) (s : LLMService) (fuel : Nat) (e : LLMError)
    (h : (callWithRetry (behavior s.llm) maxAttempts).1 = Except.error e)
    (ho : isOpenAIError e = false) :
    callLoop llms maxAttempts behavior s (fuel + 1) = (CallOutcome.propagated e, s, 1) := by
  rw [callLoop, h]
  simp [ho]

theorem callLoop_succ_break (llms : List String) (maxAttempts : Nat)
    (behavior : Nat → Nat → Except LLMError α) (s : LLMService) (e : LLMError)
    (h : (callWithRetry (behavior s.llm) maxAttempts).1 = Except.error e)
    (ho : isOpenAIError e = true) :
    callLoop llms maxAttempts behavior s 1 = (CallOutcome.allExhausted, s, 1) := by
  rw [callLoop, h]
  simp [ho]

theorem callLoop_succ_switch (llms : List String) (maxAttempts : Nat)
    (behavior : Nat → Nat → Except LLMError α) (s : LLMService) (fuel : Nat) (e : LLMError)
    (h : (callWithRetry (behavior s.llm) maxAttempts).1 = Except.error e)
    (ho : isOpenAIError e = true) :
    callLoop llms maxAttempts behavior s (fuel + 2) =
      ((callLoop llms maxAttempts behavior (switchToNextModel llms s) (fuel + 1)).1,
       (callLoop llms maxAttempts behavior (switchToNextModel llms s) (fuel + 1)).2.1,
       (callLoop llms maxAttempts behavior (switchToNextModel llms s) (fuel + 1)).2.2 + 1) := by
  conv_lhs => rw [callLoop]
  rw [h]
  simp [ho]

theorem callLoop_rounds_le (llms : List String) (maxAttempts : Nat)
    (behavior : Nat → Nat → Except LLMError α) :
    ∀ (fuel : Nat) (s : LLMService),
      (callLoop llms maxAttempts behavior s fuel).2.2 ≤ fuel := by
  intro fuel
  induction fuel with
  | zero => intro s; rw [callLoop_zero]
  | succ fuel ih =>
    intro s
    cases h : (callWithRetry (behavior s.llm) maxAttempts).1 with
    | ok a =>
      rw [callLoop_succ_ok llms maxAttempts behavior s fuel a h]
      show 1 ≤ fuel + 1
      omega
    | error e =>
      by_cases ho : isOpenAIError e = true
      · cases fuel with
        | zero => rw [callLoop_succ_break llms maxAttempts behavior s e h ho]
        | succ fuel' =>
          have := ih (switchToNextModel llms s)
          rw [callLoop_succ_switch llms maxAttempts behavior s fuel' e h ho]
          simp only
          omega
      · rw [callLoop_succ_propagated llms maxAttempts behavior s fuel e h
          (by simpa using ho)]
        show 1 ≤ fuel + 1
        omega

theorem callLoop_all_exhausted (llms : List String) (maxAttempts : Nat)
    (behavior : Nat → Nat → Except LLMError α)
    (hfail : ∀ b : Nat, ∃ e, (callWithRetry (behavior b) maxAttempts).1 = Except.error e
      ∧ isTransient e = true) :
    ∀ (fuel : Nat) (s : LLMService),
      (callLoop llms maxAttempts behavior s fuel).1 = CallOutcome.allExhausted := by
  intro fuel
  induction fuel with
  | zero => intro s; rw [callLoop_zero]
  | succ fuel ih =>
    intro s
    obtain ⟨e, he, htrans⟩ := hfail s.llm
    have ho : isOpenAIError e = true := isTransient_isOpenAIError e htrans
    cases fuel with
    | zero => rw [callLoop_succ_break llms maxAttempts behavior s e he ho]
    | succ fuel' =>
      rw [callLoop_succ_switch llms maxAttempts behavior s fuel' e he ho]
      exact ih (switchToNextModel llms s)

theorem callLoop_sticky (llms : List String) (maxAttempts : Nat)
    (behavior : Nat → Nat → Except LLMError α) :
    ∀ (fuel : Nat) (s : LLMService), ∃ k, k ≤ fuel ∧
      (callLoop llms maxAttempts behavior s fuel).2.1 =
        (fun t => switchToNextModel llms t)^[k] s := by
  intro fuel
  induction fuel with
  | zero => intro s; exact ⟨0, Nat.le_refl 0, rfl⟩
  | succ fuel ih =>
    intro s
    cases h : (callWithRetry (behavior s.llm) maxAttempts).1 with
    | ok a =>
      exact ⟨0, Nat.zero_le _, by
        rw [callLoop_succ_ok llms maxAttempts behavior s fuel a h]
        rfl⟩
    | error e =>
      by_cases ho : isOpenAIError e = true
      · cases fuel with
        | zero =>
          exact ⟨0, Nat.zero_le _, by
            rw [callLoop_succ_break llms maxAttempts behavior s e h ho]
            rfl⟩
        | succ fuel' =>
          obtain ⟨k, hk, hs⟩ := ih (switchToNextModel llms s)
          refine ⟨k + 1, by omega, ?_⟩
          rw [callLoop_succ_switch llms maxAttempts behavior s fuel' e h ho]
          simp only
          rw [Function.iterate_succ_apply]
          exact hs
      · exact ⟨0, Nat.zero_le _, by
          rw [callLoop_succ_propagated llms maxAttempts behavior s fuel e h (by simpa using ho)]
          rfl⟩

theorem callLoop_success_state (llms : List String) (maxAttempts : Nat)
    (behavior : Nat → Nat → Except LLMError α) :
    ∀ (fuel : Nat) (s : LLMService) (a : α),
      (callLoop llms maxAttempts behavior s fuel).1 = CallOutcome.success a →
      (callWithRetry (behavior ((callLoop llms maxAttempts behavior s fuel).2.1).llm)
          maxAttempts).1 = Except.ok a := by
  intro fuel
  induction fuel with
  | zero =>
    intro s a h
    rw [callLoop_zero] at h
    exact absurd h (by simp)
  | succ fuel ih =>
    intro s a h
    cases hc : (callWithRetry (behavior s.llm) maxAttempts).1 with
    | ok b =>
      rw [callLoop_succ_ok llms maxAttempts behavior s fuel b hc] at h ⊢
      have hsa : b = a := by
        simpa using h
      rw [← hsa]
      exact hc
    | error e =>
      by_cases ho : isOpenAIError e = true
      · cases fuel with
        | zero =>
          rw [callLoop_succ_break llms maxAttempts behavior s e hc ho] at h
          exact absurd h (by simp)
        | succ fuel' =>
          rw [callLoop_succ_switch llms maxAttempts behavior s fuel' e hc ho] at h ⊢
          exact ih (switchToNextModel llms s) a h
      · rw [callLoop_succ_propagated llms maxAttempts behavior s fuel e hc
          (by simpa using ho)] at h
        exact absurd h (by simp)

/- ==================================================
   Claim theorems
   ================================================== -/

/-- C3: within one backend's retry loop at most `MAX_LLM_CALL_RETRIES`
attempts are made (here for any configured bound `r ≥ 1`), and the backoff
delay sequence of `wait_exponential(multiplier=1, min=2, max=10)` is
non-decreasing, starts at 2 seconds, doubles each time subject to the cap,
and is capped at 10 seconds. -/
theorem retry_budget_and_backoff (r : Nat) (hr : 1 ≤ r) :
    (∀ behavior : Nat → Except LLMError String, (callWithRetry behavior r).2 ≤ r)
    ∧ backoffDelay 1 = 2
    ∧ (∀ n, 1 ≤ n → backoffDelay (n + 1) = min (2 * backoffDelay n) 10)
    ∧ (∀ m n, m ≤ n → backoffDelay m ≤ backoffDelay n)
    ∧ (∀ n, backoffDelay n ≤ 10) := by
  refine ⟨?_, ?_, ?_, ?_, ?_⟩
  · intro behavior
    have := retryGo_snd_le behavior r r 1
    unfold callWithRetry
    omega
  · decide
  · intro n hn
    have h2 : 2 ≤ 2 ^ n := by
      calc 2 = 2 ^ 1 := by decide
        _ ≤ 2 ^ n := Nat.pow_le_pow_right (by decide) hn
    have hsucc : 2 ^ (n + 1) = 2 * 2 ^ n := by
      rw [Nat.pow_succ]
      omega
    simp only [backoffDelay, Nat.one_mul]
    omega
  · intro m n hmn
    have := Nat.pow_le_pow_right (show 1 ≤ 2 by decide) hmn
    simp only [backoffDelay, Nat.one_mul]
    omega
  · intro n
    simp only [backoffDelay, Nat.one_mul]
    omega

/-- Witness for C3 at the configured retry bound. -/
theorem retry_budget_and_backoff_witness :
    1 ≤ MAX_LLM_CALL_RETRIES
    ∧ ((∀ behavior : Nat → Except LLMError String,
          (callWithRetry behavior MAX_LLM_CALL_RETRIES).2 ≤ MAX_LLM_CALL_RETRIES)
      ∧ backoffDelay 1 = 2
      ∧ (∀ n, 1 ≤ n → backoffDelay (n + 1) = min (2 * backoffDelay n) 10)
      ∧ (∀ m n, m ≤ n → backoffDelay m ≤ backoffDelay n)
      ∧ (∀ n, backoffDelay n ≤ 10)) :=
  ⟨by decide, retry_budget_and_backoff MAX_LLM_CALL_RETRIES (by decide)⟩

/-- C1: in `LLMService.call`, when the current backend's retry loop exhausts
its budget with a transient error, the sticky index advances circularly to
`(i + 1) mod N` and the inner loop is retried on that backend; the outer
loop makes at most `N = len(LLMRegistry.LLMS)` rounds; and when every
backend's retry loop exhausts transiently, `call` ends with the terminal
exhaustion error and returns no message. -/
theorem call_circular_fallback_exhaustion
    (llms : List String) (r : Nat) (behavior : Nat → Nat → Except LLMError String) :
    (∀ (s : LLMService) (fuel : Nat) (e : LLMError),
        (callWithRetry (behavior s.llm) r).1 = Except.error e → isTransient e = true →
        callLoop llms r behavior s (fuel + 2) =
          ((callLoop llms r behavior (switchToNextModel llms s) (fuel + 1)).1,
           (callLoop llms r behavior (switchToNextModel llms s) (fuel + 1)).2.1,
           (callLoop llms r behavior (switchToNextModel llms s) (fuel + 1)).2.2 + 1))
    ∧ (∀ s : LLMService,
        (switchToNextModel llms s).currentModelIndex = (s.currentModelIndex + 1) % llms.length
        ∧ (switchToNextModel llms s).llm = (s.currentModelIndex + 1) % llms.length)
    ∧ (∀ s : LLMService, (LLMService.call llms r behavior s).2.2 ≤ llms.length)
    ∧ ((∀ b : Nat, ∃ e, (callWithRetry (behavior b) r).1 = Except.error e
          ∧ isTransient e = true) →
        ∀ s : LLMService,
          (LLMService.call llms r behavior s).1 = CallOutcome.allExhausted) := by
  refine ⟨?_, ?_, ?_, ?_⟩
  · intro s fuel e he htrans
    exact callLoop_succ_switch llms r behavior s fuel e he
      (isTransient_isOpenAIError e htrans)
  · intro s
    exact ⟨rfl, rfl⟩
  · intro s
    exact callLoop_rounds_le llms r behavior llms.length s
  · intro hfail s
    exact callLoop_all_exhausted llms r behavior hfail llms.length s

/-- Witness for C1: the registry of three backends, each always failing with
a rate-limit error; `call` starting at the default index ends with the
terminal exhaustion error, within at most three rounds. -/
theorem call_circular_fallback_exhaustion_witness :
    (LLMService.call LLMS MAX_LLM_CALL_RETRIES
        (fun _ _ => (Except.error LLMError.rateLimitError : Except LLMError String))
        ⟨0, 0⟩).1 = CallOutcome.allExhausted
    ∧ (LLMService.call LLMS MAX_LLM_CALL_RETRIES
        (fun _ _ => (Except.error LLMError.rateLimitError : Except LLMError String))
        ⟨0, 0⟩).2.2 ≤ LLMS.length :=
  ⟨(call_circular_fallback_exhaustion LLMS MAX_LLM_CALL_RETRIES
      (fun _ _ => Except.error LLMError.rateLimitError)).2.2.2
      (fun _ => ⟨LLMError.rateLimitError, rfl, rfl⟩) ⟨0, 0⟩,
   (call_circular_fallback_exhaustion LLMS MAX_LLM_CALL_RETRIES
      (fun _ _ => Except.error LLMError.rateLimitError)).2.2.1 ⟨0, 0⟩⟩

/-- C2 counterexample: a non-transient error of the OpenAI family
(`otherOpenAIError`, e.g. a plain `OpenAIError`) raised by backend 0 is
indeed not retried (the retry loop returns it after a single attempt), but
it does NOT propagate to the caller and it DOES trigger fallback: with
backend 1 succeeding, `call` returns backend 1's response after a fallback
transition.  This refutes the claim that every non-transient error
propagates immediately without triggering fallback. -/
theorem nontransient_error_cx :
    isTransient LLMError.otherOpenAIError = false
    ∧ callWithRetry
        (fun _ => (Except.error LLMError.otherOpenAIError : Except LLMError String))
        MAX_LLM_CALL_RETRIES = (Except.error LLMError.otherOpenAIError, 1)
    ∧ LLMService.call LLMS MAX_LLM_CALL_RETRIES
        (fun b _ => if b = 0 then Except.error LLMError.otherOpenAIError
                    else Except.ok "fallback-response") ⟨0, 0⟩
      = (CallOutcome.success "fallback-response", ⟨1, 1⟩, 2) :=
  ⟨rfl, rfl, by decide⟩

/-- C2 amended: only the transient classes are retried within a backend — a
non-transient error ends the retry loop at the attempt that raised it, and a
transient first-attempt error leads to a second attempt when the budget
allows; an error outside the `OpenAIError` family then propagates to the
caller without fallback, while a non-transient error inside the family
triggers fallback to the next backend exactly like retry exhaustion. -/
theorem nontransient_error_handling
    (llms : List String) (r : Nat) (behavior : Nat → Nat → Except LLMError String) :
    (∀ (b : Nat) (e : LLMError), behavior b 1 = Except.error e → isTransient e = false →
        callWithRetry (behavior b) r = (Except.error e, 1))
    ∧ (∀ (b : Nat) (e : LLMError), behavior b 1 = Except.error e → isTransient e = true →
        2 ≤ r → 2 ≤ (callWithRetry (behavior b) r).2)
    ∧ (∀ (s : LLMService) (e : LLMError) (fuel : Nat),
        (callWithRetry (behavior s.llm) r).1 = Except.error e → isOpenAIError e = false →
        callLoop llms r behavior s (fuel + 1) = (CallOutcome.propagated e, s, 1))
    ∧ (∀ (s : LLMService) (e : LLMError) (fuel : Nat),
        (callWithRetry (behavior s.llm) r).1 = Except.error e → isOpenAIError e = true →
        (callLoop llms r behavior s (fuel + 2)).2.2 =
          (callLoop llms r behavior (switchToNextModel llms s) (fuel + 1)).2.2 + 1) := by
  refine ⟨?_, ?_, ?_, ?_⟩
  · intro b e he htrans
    unfold callWithRetry
    cases r with
    | zero => simp [retryGo, he]
    | succ r' => simp [retryGo, he, htrans]
  · intro b e he htrans hr
    obtain ⟨r', hr'⟩ : ∃ r', r = r' + 2 := ⟨r - 2, by omega⟩
    subst hr'
    unfold callWithRetry
    calc 2 ≤ (retryGo (behavior b) (r' + 2) 2 (r' + 1)).2 :=
          retryGo_snd_ge (behavior b) (r' + 2) (r' + 1) 2
      _ = (retryGo (behavior b) (r' + 2) 1 (r' + 2)).2 := by
          conv_rhs => rw [retryGo]
          rw [he]
          simp [htrans]
  · intro s e fuel he ho
    exact callLoop_succ_propagated llms r behavior s fuel e he ho
  · intro s e fuel he ho
    rw [callLoop_succ_switch llms r behavior s fuel e he ho]

/-- Witness for C2's amended statement: a plain `OpenAIError` on backend 0 is
returned after one attempt and, in the fallback loop, costs exactly one extra
round. -/
theorem nontransient_error_handling_witness :
    ((fun (b : Nat) (_ : Nat) => if b = 0
        then (Except.error LLMError.otherOpenAIError : Except LLMError String)
        else Except.ok "fallback-response") 0 1 = Except.error LLMError.otherOpenAIError)
    ∧ isTransient LLMError.otherOpenAIError = false
    ∧ callWithRetry
        ((fun (b : Nat) (_ : Nat) => if b = 0
            then (Except.error LLMError.otherOpenAIError : Except LLMError String)
            else Except.ok "fallback-response") 0)
        MAX_LLM_CALL_RETRIES = (Except.error LLMError.otherOpenAIError, 1) :=
  ⟨rfl, rfl,
    (nontransient_error_handling LLMS MAX_LLM_CALL_RETRIES
      (fun b _ => if b = 0 then Except.error LLMError.otherOpenAIError
                  else Except.ok "fallback-response")).1 0
      LLMError.otherOpenAIError rfl rfl⟩

/-- C4: the sticky backend index is never reset by a call.  A call that
succeeds immediately leaves the service state untouched, so the next call
starts at the same backend; whenever a call ends with a success, the final
state points exactly at the backend whose retry loop produced that success
(in particular a fallback backend stays current after succeeding); and the
final state of any call is reachable from the initial state only by iterated
circular switches — there is no reset to the default backend. -/
theorem sticky_index_persists
    (llms : List String) (r : Nat) (behavior : Nat → Nat → Except LLMError String)
    (hlen : llms ≠ []) :
    (∀ (s : LLMService) (a : String),
        (callWithRetry (behavior s.llm) r).1 = Except.ok a →
        LLMService.call llms r behavior s = (CallOutcome.success a, s, 1))
    ∧ (∀ (s : LLMService) (a : String),
        (LLMService.call llms r behavior s).1 = CallOutcome.success a →
        (callWithRetry (behavior ((LLMService.call llms r behavior s).2.1).llm) r).1 =
          Except.ok a)
    ∧ (∀ (s : LLMService) (fuel : Nat), ∃ k, k ≤ fuel ∧
        (callLoop llms r behavior s fuel).2.1 = (fun t => switchToNextModel llms t)^[k] s) := by
  refine ⟨?_, ?_, ?_⟩
  · intro s a h
    obtain ⟨m, hm⟩ : ∃ m, llms.length = m + 1 := by
      cases llms with
      | nil => exact absurd rfl hlen
      | cons x xs => exact ⟨xs.length, rfl⟩
    unfold LLMService.call
    rw [hm]
    exact callLoop_succ_ok llms r behavior s m a h
  · intro s a h
    exact callLoop_success_state llms r behavior llms.length s a h
  · intro s fuel
    exact callLoop_sticky llms r behavior fuel s

/-- Witness for C4: with backends 0 and 1 always failing and backend 2
succeeding, a call from the state left at backend 2 succeeds immediately and
leaves the sticky index at backend 2. -/
theorem sticky_index_persists_witness :
    LLMS ≠ []
    ∧ LLMService.call LLMS MAX_LLM_CALL_RETRIES
        (fun b _ => if b = 2 then Except.ok "ok"
                    else (Except.error LLMError.rateLimitError : Except LLMError String))
        ⟨2, 2⟩ = (CallOutcome.success "ok", ⟨2, 2⟩, 1) :=
  ⟨by decide,
   (sticky_index_persists LLMS MAX_LLM_CALL_RETRIES
      (fun b _ => if b = 2 then Except.ok "ok" else Except.error LLMError.rateLimitError)
      (by decide)).1 ⟨2, 2⟩ "ok" rfl⟩

theorem toolCallOutputs_resolved (toolsByName : String → Option (String → String)) :
    ∀ tcs : List ToolCall, (∀ tc ∈ tcs, (toolsByName tc.name).isSome = true) →
    ∃ outs, toolCallOutputs toolsByName tcs = Except.ok outs
      ∧ outs.length = tcs.length
      ∧ ∀ (k : Nat) (hk : k < tcs.length) (hk2 : k < outs.length),
          (outs.get ⟨k, hk2⟩).tool_call_id = (tcs.get ⟨k, hk⟩).id
          ∧ (outs.get ⟨k, hk2⟩).name = (tcs.get ⟨k, hk⟩).name
          ∧ (outs.get ⟨k, hk2⟩).role = "tool" := by
  intro tcs
  induction tcs with
  | nil =>
    intro _
    exact ⟨[], rfl, rfl, fun k hk _ => absurd hk (by simp)⟩
  | cons tc rest ih =>
    intro hres
    obtain ⟨tool, htool⟩ := Option.isSome_iff_exists.mp (hres tc (by simp))
    obtain ⟨outs, houts, hlen, hfields⟩ := ih (fun t ht => hres t (by simp [ht]))
    refine ⟨{ role := "tool", content := tool tc.args, name := tc.name,
              tool_calls := [], tool_call_id := tc.id } :: outs, ?_, by simp [hlen], ?_⟩
    · rw [toolCallOutputs, htool, houts]
    · intro k hk hk2
      cases k with
      | zero => exact ⟨rfl, rfl, rfl⟩
      | succ k' =>
        exact hfields k' (by simpa using hk) (by simpa using hk2)

theorem toolCallOutputs_unknown (toolsByName : String → Option (String → String)) :
    ∀ (tcs : List ToolCall) (tc : ToolCall), tc ∈ tcs → toolsByName tc.name = none →
    ∃ name, toolCallOutputs toolsByName tcs = Except.error (ToolNodeError.keyError name)
      ∧ toolsByName name = none := by
  intro tcs
  induction tcs with
  | nil => intro tc htc; exact absurd htc (by simp)
  | cons hd rest ih =>
    intro tc htc hunk
    cases hhd : toolsByName hd.name with
    | none =>
      exact ⟨hd.name, by rw [toolCallOutputs, hhd], hhd⟩
    | some tool =>
      have htc' : tc ∈ rest := by
        rcases List.mem_cons.mp htc with heq | hmem
        · rw [heq] at hunk
          rw [hunk] at hhd
          exact absurd hhd (by simp)
        · exact hmem
      obtain ⟨name, herr, hnone⟩ := ih tc htc' hunk
      exact ⟨name, by rw [toolCallOutputs, hhd, herr], hnone⟩

/-- C5: for an assistant message carrying `k` tool-call requests that all
resolve in the registry, the `tool_call` node returns a command holding
exactly `k` tool-result messages, one per request in request order, each
whose `tool_call_id` is the id of its originating request and whose name is
the tool's name; applying the command appends them all to the state, and the
command routes unconditionally back to the `chat` node. -/
theorem tool_call_node_batch
    (toolsByName : String → Option (String → String)) (state : GraphState)
    (m : GraphMessage) (hm : state.messages.getLast? = some m)
    (hres : ∀ tc ∈ m.tool_calls, (toolsByName tc.name).isSome = true) :
    ∃ cmd : Command, toolCallNode toolsByName state = Except.ok cmd
      ∧ cmd.goto = "chat"
      ∧ cmd.update.length = m.tool_calls.length
      ∧ (∀ (k : Nat) (hk : k < m.tool_calls.length) (hk2 : k < cmd.update.length),
          (cmd.update.get ⟨k, hk2⟩).tool_call_id = (m.tool_calls.get ⟨k, hk⟩).id
          ∧ (cmd.update.get ⟨k, hk2⟩).name = (m.tool_calls.get ⟨k, hk⟩).name
          ∧ (cmd.update.get ⟨k, hk2⟩).role = "tool")
      ∧ (applyCommand state cmd).messages = state.messages ++ cmd.update := by
  obtain ⟨outs, houts, hlen, hfields⟩ := toolCallOutputs_resolved toolsByName m.tool_calls hres
  refine ⟨{ update := outs, goto := "chat" }, ?_, rfl, hlen, hfields, rfl⟩
  simp [toolCallNode, hm, houts]

/-- Witness for C5: an assistant message with two resolvable tool-call
requests yields exactly two tool-result messages with matching call ids. -/
theorem tool_call_node_batch_witness :
    ∃ cmd : Command,
      toolCallNode (fun n => if n = "duckduckgo_results_json" then some (fun a => a) else none)
        { messages := [{ role := "assistant", content := "", name := "",
                         tool_calls := [⟨"duckduckgo_results_json", "q1", "call-1"⟩,
                                        ⟨"duckduckgo_results_json", "q2", "call-2"⟩],
                         tool_call_id := "" }],
          long_term_memory := "" } = Except.ok cmd
      ∧ cmd.goto = "chat"
      ∧ cmd.update.length = 2 := by
  obtain ⟨cmd, hok, hgoto, hlen, _, _⟩ :=
    tool_call_node_batch
      (fun n => if n = "duckduckgo_results_json" then some (fun a => a) else none)
      { messages := [{ role := "assistant", content := "", name := "",
                       tool_calls := [⟨"duckduckgo_results_json", "q1", "call-1"⟩,
                                      ⟨"duckduckgo_results_json", "q2", "call-2"⟩],
                       tool_call_id := "" }],
        long_term_memory := "" }
      { role := "assistant", content := "", name := "",
        tool_calls := [⟨"duckduckgo_results_json", "q1", "call-1"⟩,
                       ⟨"duckduckgo_results_json", "q2", "call-2"⟩],
        tool_call_id := "" }
      rfl
      (by intro tc htc; fin_cases htc <;> rfl)
  exact ⟨cmd, hok, hgoto, by rw [hlen]; rfl⟩

/-- C6: a tool-call request whose name is absent from the registry makes the
`tool_call` node fail with a `KeyError` carrying an unresolvable name; the
error propagates out of the node (no command, hence no tool-result message,
is produced for the turn) and nothing retries it. -/
theorem unknown_tool_fatal
    (toolsByName : String → Option (String → String)) (state : GraphState)
    (m : GraphMessage) (hm : state.messages.getLast? = some m)
    (tc : ToolCall) (htc : tc ∈ m.tool_calls) (hunk : toolsByName tc.name = none) :
    ∃ name, toolCallNode toolsByName state = Except.error (ToolNodeError.keyError name)
      ∧ toolsByName name = none := by
  obtain ⟨name, herr, hnone⟩ := toolCallOutputs_unknown toolsByName m.tool_calls tc htc hunk
  refine ⟨name, ?_, hnone⟩
  simp [toolCallNode, hm, herr]

/-- Witness for C6: a request for a hallucinated tool name makes the node
fail with a `KeyError`. -/
theorem unknown_tool_fatal_witness :
    ∃ name,
      toolCallNode (fun n => if n = "duckduckgo_results_json" then some (fun a => a) else none)
        { messages := [{ role := "assistant", content := "", name := "",
                         tool_calls := [⟨"get_weather", "Paris", "call-9"⟩],
                         tool_call_id := "" }],
          long_term_memory := "" } = Except.error (ToolNodeError.keyError name)
      ∧ (fun n => if n = "duckduckgo_results_json" then some (fun a => (a : String)) else none)
          name = none :=
  unknown_tool_fatal
    (fun n => if n = "duckduckgo_results_json" then some (fun a => a) else none)
    { messages := [{ role := "assistant", content := "", name := "",
                     tool_calls := [⟨"get_weather", "Paris", "call-9"⟩],
                     tool_call_id := "" }],
      long_term_memory := "" }
    { role := "assistant", content := "", name := "",
      tool_calls := [⟨"get_weather", "Paris", "call-9"⟩],
      tool_call_id := "" }
    rfl ⟨"get_weather", "Paris", "call-9"⟩ (by simp) rfl

theorem star_append_ne_empty (s : String) : "* " ++ s ≠ "" := by
  intro h
  have hlen : ("* " ++ s).length = 0 := by rw [h]; rfl
  rw [String.length_append] at hlen
  have h2 : ("* " : String).length = 2 := by decide
  omega

theorem append_left_ne_empty (s t : String) (hs : s ≠ "") : s ++ t ≠ "" := by
  intro h
  have hlen : (s ++ t).length = 0 := by rw [h]; rfl
  rw [String.length_append] at hlen
  have hs0 : s.length ≠ 0 := by
    intro h0
    exact hs (String.ext (List.length_eq_zero.mp h0))
  omega

theorem joinLines_star_ne_empty :
    ∀ results : List String, results ≠ [] →
      joinLines (results.map fun res => "* " ++ res) ≠ "" := by
  intro results hne
  cases results with
  | nil => exact absurd rfl hne
  | cons r rest =>
    cases rest with
    | nil => exact star_append_ne_empty r
    | cons y ys =>
      show ("* " ++ r) ++ "\x0a" ++ joinLines _ ≠ ""
      exact append_left_ne_empty _ _ (append_left_ne_empty _ _ (star_append_ne_empty r))

/-- C7 counterexample: a memory search that raises makes `get_response`
propagate the error to the caller; no response is produced and the turn
aborts, refuting the claim that a memory search failure is recovered locally
(the source wraps only the post-turn memory update, not the search, in a
try/except). -/
theorem memory_search_error_cx :
    getResponse (fun _ => Except.error ()) (fun _ _ => [])
      [{ role := "user", content := "hi" }] = Except.error TurnError.searchError := rfl

/-- C7 amended: a failure of the long-term-memory search is NOT recovered by
the orchestrator — for every turn whose memory search raises, `get_response`
propagates the search error to its caller and the turn aborts without
running the graph. -/
theorem memory_search_error_propagates
    (search : String → Except Unit (List String))
    (runGraph : List Message → String → List GraphMessage)
    (messages : List Message) (lastMsg : Message)
    (hlast : messages.getLast? = some lastMsg)
    (herr : search lastMsg.content = Except.error ()) :
    getResponse search runGraph messages = Except.error TurnError.searchError := by
  simp [getResponse, hlast, herr]

/-- Witness for C7's amended statement at a concrete failing search. -/
theorem memory_search_error_propagates_witness :
    getResponse (fun _ => Except.error ())
      (fun _ ltm => [{ role := "assistant", content := ltm, name := "",
                       tool_calls := [], tool_call_id := "" }])
      [{ role := "user", content := "what did I say?" }]
      = Except.error TurnError.searchError :=
  memory_search_error_propagates (fun _ => Except.error ())
    (fun _ ltm => [{ role := "assistant", content := ltm, name := "",
                     tool_calls := [], tool_call_id := "" }])
    [{ role := "user", content := "what did I say?" }]
    { role := "user", content := "what did I say?" } rfl rfl

/-- C8: when the memory search succeeds with an empty result sequence, no
error is raised and the long-term-memory context injected into the initial
state is the sentinel string "No relevant memory found."; when the results
are non-empty, the injected context is the results joined into a single
string of "* <memory>" lines. -/
theorem memory_sentinel_injection
    (search : String → Except Unit (List String))
    (runGraph : List Message → String → List GraphMessage)
    (messages : List Message) (lastMsg : Message)
    (hlast : messages.getLast? = some lastMsg) :
    (search lastMsg.content = Except.ok [] →
      getResponse search runGraph messages =
        Except.ok (processMessages (runGraph messages "No relevant memory found.")))
    ∧ (∀ results, results ≠ [] → search lastMsg.content = Except.ok results →
      getResponse search runGraph messages =
        Except.ok (processMessages (runGraph messages
          (joinLines (results.map fun res => "* " ++ res))))) := by
  constructor
  · intro hok
    simp [getResponse, hlast, hok, joinLines]
  · intro results hne hok
    simp only [getResponse, hlast, hok]
    rw [if_neg (joinLines_star_ne_empty results hne)]

/-- Witness for C8: an empty search result injects the sentinel; a two-fact
result injects the joined fact lines. -/
theorem memory_sentinel_injection_witness :
    (getResponse (fun _ => Except.ok [])
        (fun _ ltm => [{ role := "assistant", content := ltm, name := "",
                         tool_calls := [], tool_call_id := "" }])
        [{ role := "user", content := "hi" }]
      = Except.ok (processMessages
          [{ role := "assistant", content := "No relevant memory found.", name := "",
             tool_calls := [], tool_call_id := "" }]))
    ∧ (getResponse (fun _ => Except.ok ["likes tea", "lives in Paris"])
        (fun _ ltm => [{ role := "assistant", content := ltm, name := "",
                         tool_calls := [], tool_call_id := "" }])
        [{ role := "user", content := "hi" }]
      = Except.ok (processMessages
          [{ role := "assistant",
             content := joinLines (["likes tea", "lives in Paris"].map fun res => "* " ++ res),
             name := "", tool_calls := [], tool_call_id := "" }])) :=
  ⟨(memory_sentinel_injection (fun _ => Except.ok [])
      (fun _ ltm => [{ role := "assistant", content := ltm, name := "",
                       tool_calls := [], tool_call_id := "" }])
      [{ role := "user", content := "hi" }]
      { role := "user", content := "hi" } rfl).1 rfl,
   (memory_sentinel_injection (fun _ => Except.ok ["likes tea", "lives in Paris"])
      (fun _ ltm => [{ role := "assistant", content := ltm, name := "",
                       tool_calls := [], tool_call_id := "" }])
      [{ role := "user", content := "hi" }]
      { role := "user", content := "hi" } rfl).2
      ["likes tea", "lives in Paris"] (by simp) rfl⟩

/-- C9: `get_response` reads `messages[-1].content` before any graph
execution, so an empty input message list fails with the indexing error and
no response is returned; when the list is non-empty the last-element access
succeeds and the indexing error cannot occur. -/
theorem nonempty_messages_precondition
    (search : String → Except Unit (List String))
    (runGraph : List Message → String → List GraphMessage) :
    getResponse search runGraph [] = Except.error TurnError.indexError
    ∧ (∀ messages : List Message, messages ≠ [] →
        (∃ lastMsg, messages.getLast? = some lastMsg)
        ∧ getResponse search runGraph messages ≠ Except.error TurnError.indexError) := by
  constructor
  · rfl
  · intro messages hne
    obtain ⟨lastMsg, hlast⟩ :=
      Option.isSome_iff_exists.mp (List.getLast?_isSome.mpr hne)
    refine ⟨⟨lastMsg, hlast⟩, ?_⟩
    cases hs : search lastMsg.content with
    | error u => simp [getResponse, hlast, hs]
    | ok results => simp [getResponse, hlast, hs]

/-- Witness for C9's non-emptiness branch at a concrete one-message list. -/
theorem nonempty_messages_precondition_witness :
    (∃ lastMsg, ([{ role := "user", content := "hi" }] : List Message).getLast? = some lastMsg)
    ∧ getResponse (fun _ => Except.ok []) (fun _ _ => [])
        [{ role := "user", content := "hi" }] ≠ Except.error TurnError.indexError :=
  (nonempty_messages_precondition (fun _ => Except.ok []) (fun _ _ => [])).2
    [{ role := "user", content := "hi" }] (by simp)

theorem registryScan_mem (name : String) :
    ∀ (llms : List String) (i : Nat), name ∈ llms →
      ∃ j, registryScan llms name i = some (i + j) ∧ llms.get? j = some name := by
  intro llms
  induction llms with
  | nil => intro i h; exact absurd h (by simp)
  | cons n rest ih =>
    intro i h
    by_cases hn : n = name
    · exact ⟨0, by simp [registryScan, hn], by simp [hn]⟩
    · have hmem : name ∈ rest := by
        rcases List.mem_cons.mp h with heq | hmem
        · exact absurd heq.symm hn
        · exact hmem
      obtain ⟨j, hscan, hget⟩ := ih (i + 1) hmem
      refine ⟨j + 1, ?_, by simpa using hget⟩
      rw [registryScan, if_neg hn, hscan]
      ring_nf

theorem registryScan_not_mem (name : String) :
    ∀ (llms : List String) (i : Nat), name ∉ llms →
      registryScan llms name i = none := by
  intro llms
  induction llms with
  | nil => intro i _; rfl
  | cons n rest ih =>
    intro i h
    have hn : ¬n = name := fun he => h (by simp [he])
    rw [registryScan, if_neg hn]
    exact ih (i + 1) (fun hm => h (by simp [hm]))

/-- C10: `LLMRegistry.get` is total — a name matching some registry entry
returns an entry carrying exactly that name (the first match), and an
unmatched name returns the first registry entry's model (index 0); hence an
`LLMService` constructed with an unknown default model name starts with
backend index 0 and the first registry model. -/
theorem registry_get_total (llms : List String) (name : String) :
    (name ∈ llms → llms.get? (registryGet llms name) = some name)
    ∧ (name ∉ llms → registryGet llms name = 0)
    ∧ (∀ d, d ∉ llms → LLMService.init llms d = ⟨0, 0⟩) := by
  refine ⟨?_, ?_, ?_⟩
  · intro hmem
    obtain ⟨j, hscan, hget⟩ := registryScan_mem name llms 0 hmem
    rw [registryGet, hscan]
    simpa using hget
  · intro hnot
    rw [registryGet, registryScan_not_mem name llms 0 hnot]
  · intro d hnot
    simp [LLMService.init, listIndex, registryGet, registryScan_not_mem d llms 0 hnot]

/-- Witness for C10: a known name returns its entry, an unknown name falls
back to entry 0, and a service built with an unknown default model starts at
index 0. -/
theorem registry_get_total_witness :
    ("gpt-4o" ∈ LLMS ∧ LLMS.get? (registryGet LLMS "gpt-4o") = some "gpt-4o")
    ∧ ("claude-3" ∉ LLMS ∧ registryGet LLMS "claude-3" = 0)
    ∧ LLMService.init LLMS "claude-3" = ⟨0, 0⟩ :=
  ⟨⟨by decide, (registry_get_total LLMS "gpt-4o").1 (by decide)⟩,
   ⟨by decide, (registry_get_total LLMS "claude-3").2.1 (by decide)⟩,
   (registry_get_total LLMS "claude-3").2.2 "claude-3" (by decide)⟩

end AgentStack
